import Mathlib

/-!
Verification of the core logic of `src/deepseek_python_20251204_127290.py`
(the AI Marketing Content Generator app): the keyword extractor
`extract_keywords` and the content-generation pipeline `generate_content`.

Modelling conventions:
  * Python strings are Lean `String`s; only the ASCII fragment of
    `str.lower` and of the regex classes is modelled (every input appearing
    in the claims and in the app is ASCII).
  * The external collaborators (the `openai` package and `json.loads`,
    which are not part of this repository) are abstracted into an
    environment record `Env`; a concrete environment is supplied wherever a
    theorem needs one.
  * The Streamlit UI calls (`st.error` etc.) only render messages and do
    not affect the returned value; they are omitted.
-/

namespace App

/-- ASCII lowercase letter test: the regex character class `[a-z]`. -/
def isLowerAlpha (c : Char) : Bool := 'a' ≤ c && c ≤ 'z'

/-- Regex word character `\w` (ASCII fragment): letter, digit or underscore.
`\b` in `re` is a boundary between a word character and a non-word character. -/
def isWordChar (c : Char) : Bool := c.isAlphanum || c == '_'

/-- One left-to-right pass of `re.findall(r'\b[a-z]{3,}\b', s)`.

`prevW` records whether the previously scanned character was a word
character; `run` is the current run of lowercase letters, which is only ever
started when the preceding character was not a word character (a `\b`
boundary).  A run is emitted when it is at least 3 letters long and the
character after it (if any) is not a word character (the closing `\b`).
A run of letters that begins right after a word character (e.g. after a
digit) can never contain a match, since every position inside it is
word-to-word, so it is skipped wholesale. -/
def scan (prevW : Bool) (run : List Char) : List Char → List (List Char)
  | [] => if 3 ≤ run.length then [run] else []
  | c :: cs =>
    if isLowerAlpha c then
      if run.isEmpty then
        if prevW then scan true [] cs
        else scan prevW [c] cs
      else scan prevW (run ++ [c]) cs
    else
      if 3 ≤ run.length && !isWordChar c then run :: scan (isWordChar c) [] cs
      else scan (isWordChar c) [] cs

/-- `words = re.findall(r'\b[a-z]{3,}\b', text.lower())` (source line 190). -/
def words (text : String) : List String :=
  (scan false [] (text.data.map Char.toLower)).map String.mk

/-- The literal stop-word list of `extract_keywords` (source lines 193-200;
the source lists "were" twice, which does not affect membership). -/
def stop_words : List String := [
  "the", "and", "for", "with", "this", "that", "have", "from", "was", "were",
  "are", "has", "had", "but", "not", "what", "which", "their", "they", "will",
  "would", "there", "been", "some", "because", "should", "could", "about",
  "when", "where", "how", "were", "them", "then", "than", "these", "those",
  "such", "into", "more", "your", "very", "just", "also", "most", "many",
  "only", "its", "our", "after", "before", "between", "through", "during"]

/-- `filtered_words = [word for word in words if word not in stop_words]`
(source line 203). -/
def filtered_words (text : String) : List String :=
  (words text).filter (fun w => !(stop_words.contains w))

/-- Helper for `firstOccs`: `seen` is the set of elements already emitted. -/
def firstOccsAux (seen : List String) : List String → List String
  | [] => []
  | x :: xs =>
    if seen.contains x then firstOccsAux seen xs
    else x :: firstOccsAux (x :: seen) xs

/-- The distinct elements of a list in first-occurrence order: the key order
of `collections.Counter(l)` (Python dicts preserve insertion order). -/
def firstOccs (l : List String) : List String := firstOccsAux [] l

/-- The comparison underlying `Counter.most_common`: `a` may precede `b`
when the count of `b` (in the base list `l`) is at most the count of `a`. -/
def cntGE (l : List String) (a b : String) : Prop := l.count b ≤ l.count a

instance (l : List String) : DecidableRel (cntGE l) :=
  fun a b => inferInstanceAs (Decidable (l.count b ≤ l.count a))

instance (l : List String) : IsTotal String (cntGE l) :=
  ⟨fun a b => Nat.le_total (l.count b) (l.count a)⟩

instance (l : List String) : IsTrans String (cntGE l) :=
  ⟨fun _ _ _ hab hbc => Nat.le_trans hbc hab⟩

/-- `Counter(l).most_common(top_n)` : `heapq.nlargest(top_n, items, key=count)`
is documented as `sorted(items, key=count, reverse=True)[:top_n]`, i.e. a
stable descending sort by count of the distinct elements (taken in
first-occurrence order), truncated to `top_n`.  A stable sort is modelled by
insertion sort with the relation `cntGE`. -/
def most_common (l : List String) (top_n : Nat) : List String :=
  (List.insertionSort (cntGE l) (firstOccs l)).take top_n

/-- `extract_keywords(text, top_n)` (source lines 188-211; `top_n` defaults
to 10 in the source). -/
def extract_keywords (text : String) (top_n : Nat) : List String :=
  most_common (filtered_words text) top_n

/-- The distinct qualifying (tokenized, non-stop-word) terms of a text, in
first-occurrence order. -/
def distinct_terms (text : String) : List String :=
  firstOccs (filtered_words text)

/-! ## The content-generation pipeline (`generate_content`, source lines 271-356) -/

/-- A JSON value: the shape of `json.loads` output and of the dict literals
built by `generate_content`. -/
inductive JVal where
  | jnull
  | jbool (b : Bool)
  | jnum (n : Int)
  | jstr (s : String)
  | jarr (elems : List JVal)
  | jobj (fields : List (String × JVal))

/-- Dictionary field access, e.g. `content['headline']`. -/
def getField (v : JVal) (k : String) : Option JVal :=
  match v with
  | JVal.jobj fields => fields.lookup k
  | _ => none

/-- A fully populated `GeneratedCopy` record: the four keys the app reads
(`headline`, `body`, `cta`, `hashtags`) are all present. -/
def isComplete (v : JVal) : Bool :=
  (getField v "headline").isSome && (getField v "body").isSome &&
  (getField v "cta").isSome && (getField v "hashtags").isSome

/-- One entry of `PLATFORM_PROMPTS`: a system string and an instruction
template (source lines 214-268).  These strings are fed only to the external
generation collaborator, which is abstracted away in `Env`, so only the keys
of the table influence the modelled result; whitespace inside the Python
triple-quoted literals is normalized to single newlines here. -/
structure PromptCfg where
  system : String
  instructions : String

/-- The `PLATFORM_PROMPTS` table (source lines 214-268). -/
def PLATFORM_PROMPTS : List (String × PromptCfg) := [
  ("Google Ads",
    ⟨"You are an expert Google Ads copywriter specializing in high-converting ad copy.",
     "Generate Google Ads copy with:\n- Headline (max 30 characters)\n- Description (max 90 characters)\n- Strong CTA\n- Keyword optimization\nFocus on benefits, urgency, and relevance score optimization."⟩),
  ("Facebook Ads",
    ⟨"You are an expert Facebook advertising specialist.",
     "Generate Facebook Ad copy with:\n- Attention-grabbing hook\n- Engaging body text (125-150 words)\n- Emotional appeal\n- Clear CTA\n- 3-5 relevant hashtags\nUse conversational tone and address pain points directly."⟩),
  ("Instagram",
    ⟨"You are an Instagram marketing expert specializing in visual storytelling.",
     "Generate Instagram post copy with:\n- Captivating first line\n- Story-driven content (150-200 words)\n- Emoji integration\n- Strong CTA\n- 10-15 trending hashtags\nFocus on visual language and community engagement."⟩),
  ("SEO Meta Description",
    ⟨"You are an SEO specialist focused on search engine optimization.",
     "Generate SEO-optimized meta description with:\n- Compelling description (150-160 characters)\n- Primary keyword integration\n- Benefit-focused language\n- CTA or value proposition\nOptimize for click-through rate and search relevance."⟩),
  ("Landing Page",
    ⟨"You are a conversion-focused landing page copywriter.",
     "Generate landing page content with:\n- Powerful headline\n- Subheadline\n- 3-4 benefit bullet points\n- Social proof statement\n- Primary and secondary CTA\nFocus on conversion optimization and value proposition."⟩)]

/-- The outcome of the single outbound call to the text-generation
collaborator made by one `generate_content` invocation: either the returned
message content, or a raised transport/auth/quota error (any exception). -/
inductive CallOutcome where
  | success (response : String)
  | failure (msg : String)

/-- The external environment of one `generate_content` invocation:
whether `import openai` succeeds, what the single outbound chat-completion
call does, and the behaviour of the `json.loads` decoder (Python standard
library, not part of this repository) on the returned text.  A concrete
environment consistent with the real collaborators is supplied wherever a
theorem needs one. -/
structure Env where
  openai_available : Bool
  callOutcome : CallOutcome
  jsonLoads : String → Option JVal

/-- Which branch of the pipeline produced the returned record.  The source
has no explicit provenance field; this tag names the three designed paths of
the fallback chain (the spec calls them LiveGenerated / FallbackParsed /
Demo). -/
inductive Provenance where
  | liveGenerated
  | fallbackParsed
  | demo
  deriving DecidableEq

/-- The fallback record built when `json.loads` raises on the returned text
(source lines 335-341).  Note `content if content else ...`: the raw text is
reused as `body` only when it is non-empty (truthy). -/
def fallbackContent (product_name audience : String) (keywords : List String)
    (response : String) : JVal :=
  JVal.jobj [
    ("headline", JVal.jstr ("Amazing " ++ product_name ++ " - Limited Time Offer!")),
    ("body", JVal.jstr (if response ≠ "" then response
      else ("Discover the incredible " ++ product_name ++ ". Perfect for " ++
            audience ++ ". Experience the difference today!"))),
    ("cta", JVal.jstr "Shop Now"),
    ("hashtags", JVal.jarr ((if keywords.isEmpty then ["product", "sale", "new"]
      else keywords.take 5).map JVal.jstr))]

/-- `product_name.replace(" ", "").lower()` (source line 355): drop every
space, then lowercase (ASCII fragment). -/
def stripSpacesLower (s : String) : String :=
  String.mk ((s.data.filter (fun c => c != ' ')).map Char.toLower)

/-- The demo record of the `except Exception` handler (source lines 350-356). -/
def demoContent (product_name audience tone : String) (keywords : List String) : JVal :=
  JVal.jobj [
    ("headline", JVal.jstr ("Amazing " ++ product_name ++ " - Limited Time Offer!")),
    ("body", JVal.jstr ("Introducing our incredible " ++ product_name ++
      "! Perfect for " ++ audience ++ ". Designed with " ++ tone ++
      " tone. Experience premium quality and exceptional value. Don\x27t miss out on this special opportunity!")),
    ("cta", JVal.jstr (if tone ≠ "Professional" then "Shop Now" else "Get Started")),
    ("hashtags", JVal.jarr ((if keywords.isEmpty
      then [stripSpacesLower product_name, "new", "sale", "quality"]
      else keywords.take 5).map JVal.jstr))]

/-- `generate_content` (source lines 271-356), with the branch that produced
the result recorded as a `Provenance` tag.

Control flow of the source: `if not api_key: return None`; then inside
`try:`: `import openai` (an `ImportError` is caught separately and returns
`None`), the `PLATFORM_PROMPTS[platform]` lookup (a `KeyError` on an unknown
platform is caught by `except Exception` and yields the demo record), the
single outbound call (any exception likewise yields the demo record), and
finally `json.loads` on the returned text under a bare inner `except`, whose
failure yields the fallback record.  A successfully decoded value is
returned as-is. -/
def generate_tagged (api_key : Option String) (env : Env)
    (platform product_name description audience tone : String)
    (keywords : List String) : Option (JVal × Provenance) :=
  if api_key.getD "" = "" then none
  else if env.openai_available = false then none
  else
    match PLATFORM_PROMPTS.lookup platform with
    | none => some (demoContent product_name audience tone keywords, Provenance.demo)
    | some _cfg =>
      match env.callOutcome with
      | CallOutcome.failure _ =>
        some (demoContent product_name audience tone keywords, Provenance.demo)
      | CallOutcome.success response =>
        match env.jsonLoads response with
        | some v => some (v, Provenance.liveGenerated)
        | none =>
          some (fallbackContent product_name audience keywords response,
            Provenance.fallbackParsed)

/-- `generate_content` as the caller sees it: the returned value without the
provenance tag (`None` is modelled as `none`). -/
def generate_content (api_key : Option String) (env : Env)
    (platform product_name description audience tone : String)
    (keywords : List String) : Option JVal :=
  (generate_tagged api_key env platform product_name description audience tone
    keywords).map Prod.fst

/-- An environment in which the openai import succeeds, the outbound call
returns `response`, and `json.loads` fails on every text (as the real
decoder does on any non-JSON text such as the empty string). -/
def envParseFail (response : String) : Env :=
  ⟨true, CallOutcome.success response, fun _ => none⟩

/-- An environment in which the openai import succeeds and the outbound call
raises a transport error. -/
def envTransportFail : Env :=
  ⟨true, CallOutcome.failure "connection error", fun _ => none⟩

/-- The ambient application state (the Streamlit session dictionary), made
explicit so that purity of the extractor can be stated: the body of
`extract_keywords` reads and writes no ambient state. -/
structure SessionState where
  entries : List (String × String)

/-- An invocation of `extract_keywords` as the app performs it, with the
ambient session state threaded through explicitly.  The source body touches
only its arguments (`re.findall`, a local list comprehension and a local
`Counter`), so the state passes through unchanged. -/
def extract_keywords_call (session : SessionState) (text : String) (top_n : Nat) :
    List String × SessionState :=
  (extract_keywords text top_n, session)

/-! ## Lemmas about the tokenizer -/

/-- Every token emitted by `scan` is at least 3 characters long and consists
of lowercase letters only, provided the pending run does. -/
theorem scan_sound : ∀ (rest : List Char) (prevW : Bool) (run : List Char),
    (∀ c ∈ run, isLowerAlpha c = true) →
    ∀ tok ∈ scan prevW run rest, 3 ≤ tok.length ∧ ∀ c ∈ tok, isLowerAlpha c = true := by
  intro rest
  induction rest with
  | nil =>
    intro prevW run hrun tok htok
    simp only [scan] at htok
    split at htok
    · rcases List.mem_singleton.mp htok with rfl
      exact ⟨by assumption, hrun⟩
    · simp at htok
  | cons c cs ih =>
    intro prevW run hrun tok htok
    simp only [scan] at htok
    by_cases hc : isLowerAlpha c = true
    · rw [if_pos hc] at htok
      by_cases hre : run.isEmpty
      · rw [if_pos hre] at htok
        by_cases hp : prevW
        · rw [if_pos hp] at htok
          exact ih true [] (by simp) tok htok
        · rw [if_neg hp] at htok
          refine ih prevW [c] ?_ tok htok
          intro d hd
          rcases List.mem_singleton.mp hd with rfl
          exact hc
      · rw [if_neg hre] at htok
        refine ih prevW (run ++ [c]) ?_ tok htok
        intro d hd
        rcases List.mem_append.mp hd with hd | hd
        · exact hrun d hd
        · rcases List.mem_singleton.mp hd with rfl
          exact hc
    · rw [if_neg hc] at htok
      by_cases hlen : (3 ≤ run.length && !isWordChar c) = true
      · rw [if_pos hlen] at htok
        rcases List.mem_cons.mp htok with rfl | htok
        · refine ⟨?_, hrun⟩
          have := (Bool.and_eq_true _ _).mp hlen
          exact of_decide_eq_true this.1
        · exact ih (isWordChar c) [] (by simp) tok htok
      · rw [if_neg hlen] at htok
        exact ih (isWordChar c) [] (by simp) tok htok

/-- Soundness of the regex search: each element of `words text` has at least
3 characters, all lowercase letters. -/
theorem words_sound (text : String) (w : String) (hw : w ∈ words text) :
    3 ≤ w.length ∧ ∀ c ∈ w.data, isLowerAlpha c = true := by
  rcases List.mem_map.mp hw with ⟨tok, htok, rfl⟩
  exact scan_sound _ false [] (by simp) tok htok

/-- `firstOccsAux` only emits elements of its input list. -/
theorem mem_firstOccsAux :
    ∀ (l seen : List String) (w : String), w ∈ firstOccsAux seen l → w ∈ l := by
  intro l
  induction l with
  | nil =>
    intro seen w h
    simp [firstOccsAux] at h
  | cons x xs ih =>
    intro seen w h
    simp only [firstOccsAux] at h
    split at h
    · exact List.mem_cons_of_mem _ (ih _ _ h)
    · rcases List.mem_cons.mp h with rfl | h
      · exact List.mem_cons_self _ _
      · exact List.mem_cons_of_mem _ (ih _ _ h)

/-- Every extracted keyword occurs in the filtered token stream. -/
theorem mem_extract {text : String} {n : Nat} {w : String}
    (hw : w ∈ extract_keywords text n) : w ∈ filtered_words text := by
  have h1 : w ∈ List.insertionSort (cntGE (filtered_words text))
      (firstOccs (filtered_words text)) := List.mem_of_mem_take hw
  have h2 : w ∈ firstOccs (filtered_words text) :=
    (List.mem_insertionSort _).mp h1
  exact mem_firstOccsAux _ _ _ h2

/-! ## Stability of `most_common` -/

/-- Inserting an element of count `k` leaves it at the head of the count-`k`
fiber: everything `orderedInsert` walks past has strictly larger count. -/
theorem filter_orderedInsert_eq_cnt (base : List String) (k : Nat) (x : String)
    (hx : base.count x = k) :
    ∀ l : List String,
      (List.orderedInsert (cntGE base) x l).filter (fun w => base.count w == k)
        = x :: l.filter (fun w => base.count w == k) := by
  intro l
  induction l with
  | nil => simp [List.orderedInsert, hx]
  | cons y ys ih =>
    by_cases h : cntGE base x y
    · rw [List.orderedInsert_of_le _ _ h]
      simp [List.filter_cons, hx]
    · have hy : (base.count y == k) = false := by
        refine beq_eq_false_iff_ne.mpr ?_
        intro hk
        exact h (le_of_eq (hx ▸ hk))
      simp [List.orderedInsert, if_neg h, List.filter_cons, hy, ih]

/-- Inserting an element whose count is not `k` does not disturb the
count-`k` fiber. -/
theorem filter_orderedInsert_ne_cnt (base : List String) (k : Nat) (x : String)
    (hx : ¬ base.count x = k) :
    ∀ l : List String,
      (List.orderedInsert (cntGE base) x l).filter (fun w => base.count w == k)
        = l.filter (fun w => base.count w == k) := by
  intro l
  induction l with
  | nil => simp [List.orderedInsert, hx]
  | cons y ys ih =>
    by_cases h : cntGE base x y
    · rw [List.orderedInsert_of_le _ _ h]
      simp [List.filter_cons, hx]
    · simp only [List.orderedInsert, if_neg h, List.filter_cons, ih]

/-- Stability of the modelled `most_common` sort: the stable descending sort
preserves each equal-count fiber of the input exactly. -/
theorem filter_insertionSort_cnt (base : List String) (k : Nat) :
    ∀ l : List String,
      (List.insertionSort (cntGE base) l).filter (fun w => base.count w == k)
        = l.filter (fun w => base.count w == k) := by
  intro l
  induction l with
  | nil => rfl
  | cons x xs ih =>
    simp only [List.insertionSort]
    by_cases hx : base.count x = k
    · rw [filter_orderedInsert_eq_cnt base k x hx, ih, List.filter_cons]
      simp [hx]
    · rw [filter_orderedInsert_ne_cnt base k x hx, ih, List.filter_cons]
      simp [hx]

/-- Filtering a prefix produces a prefix of the filtered list. -/
theorem filter_take_isPrefix {α : Type} (l : List α) (n : Nat) (p : α → Bool) :
    (l.take n).filter p <+: l.filter p :=
  ⟨(l.drop n).filter p, by rw [← List.filter_append, List.take_append_drop]⟩

/-! ## Claim theorems -/

/-- C1 (counterexample): the claim says `generate` never returns an
absent/null result on any path, but the source returns `None` outright when
no credential is supplied (`if not api_key: ... return None`, lines
272-274), here at the concrete brief (platform "Google Ads", product
"Smart Water Bottle") under a healthy environment. -/
theorem generate_missing_credential_absent :
    generate_content none (envParseFail "hello") "Google Ads" "Smart Water Bottle"
      "A smart water bottle" "health-conscious professionals" "Casual" [] = none := rfl

/-- C1 (amended): once a non-empty credential is supplied and the openai
package imports successfully, `generate_content` always returns a present result; on
every failure path (unknown platform, transport error, malformed response)
that result is a complete record with headline, body, cta and hashtags all
present, while on the parse-success path the decoded JSON value is returned
as-is.  Paths with a missing credential or a failed import instead return an
absent result (`None`). -/
theorem generate_with_credential_total :
    ∀ (env : Env) (key platform product_name description audience tone : String)
      (keywords : List String),
    key ≠ "" → env.openai_available = true →
    ∃ v : JVal,
      generate_content (some key) env platform product_name description audience
        tone keywords = some v ∧
      (isComplete v = true ∨
        ∃ response, env.callOutcome = CallOutcome.success response ∧
          env.jsonLoads response = some v) := by
  intro env key platform pn d aud tone kws hk ho
  cases hl : PLATFORM_PROMPTS.lookup platform with
  | none =>
    exact ⟨demoContent pn aud tone kws,
      by simp [generate_content, generate_tagged, hk, ho, hl], Or.inl rfl⟩
  | some cfg =>
    cases hco : env.callOutcome with
    | failure msg =>
      exact ⟨demoContent pn aud tone kws,
        by simp [generate_content, generate_tagged, hk, ho, hl, hco], Or.inl rfl⟩
    | success response =>
      cases hj : env.jsonLoads response with
      | none =>
        exact ⟨fallbackContent pn aud kws response,
          by simp [generate_content, generate_tagged, hk, ho, hl, hco, hj], Or.inl rfl⟩
      | some v =>
        exact ⟨v, by simp [generate_content, generate_tagged, hk, ho, hl, hco, hj],
          Or.inr ⟨response, rfl, hj⟩⟩

/-- Witness for `generate_with_credential_total` at a concrete invocation
(credential "sk-test", transport-error environment). -/
theorem generate_with_credential_total_witness :
    ∃ v : JVal,
      generate_content (some "sk-test") envTransportFail "Google Ads" "Widget"
        "a widget" "developers" "Casual" [] = some v ∧
      (isComplete v = true ∨
        ∃ response, envTransportFail.callOutcome = CallOutcome.success response ∧
          envTransportFail.jsonLoads response = some v) :=
  generate_with_credential_total envTransportFail "sk-test" "Google Ads" "Widget"
    "a widget" "developers" "Casual" [] (by decide) rfl

/-- C2 (counterexample): the claim says `generate(None, brief)` returns a
record tagged Demo for every valid brief and known platform; at the concrete
brief below (known platform "Facebook Ads") the source instead returns
`None` - no record at all, in particular not the demo record. -/
theorem generate_no_credential_not_demo :
    generate_tagged none (envParseFail "raw output") "Facebook Ads" "Widget"
      "a widget" "developers" "Casual" [] = none ∧
    (none : Option (JVal × Provenance))
      ≠ some (demoContent "Widget" "developers" "Casual" [], Provenance.demo) :=
  ⟨rfl, fun h => Option.noConfusion h⟩

/-- C2 (amended): with no credential (`None`, or the falsy empty string),
`generate_content` returns an absent result (`None`) for every brief and
every environment; the Demo-tagged record is produced only on paths where a
credential was supplied (unknown platform or a failed live call). -/
theorem generate_no_credential_none :
    ∀ (env : Env) (platform product_name description audience tone : String)
      (keywords : List String),
    generate_tagged none env platform product_name description audience tone
      keywords = none ∧
    generate_tagged (some "") env platform product_name description audience tone
      keywords = none :=
  fun _ _ _ _ _ _ _ => ⟨rfl, rfl⟩

/-- C3 (counterexample): the claim says the FallbackParsed record's body
equals the raw returned string whenever JSON decoding fails; the empty
string fails JSON decoding (`json.loads("")` raises), yet the source puts
the default description template into `body`, not the raw `""` (line 338:
`content if content else ...`). -/
theorem generate_parse_failure_empty_body :
    generate_tagged (some "sk-test") (envParseFail "") "Google Ads" "Widget"
      "a widget" "shoppers" "Casual" []
      = some (fallbackContent "Widget" "shoppers" [] "", Provenance.fallbackParsed) ∧
    getField (fallbackContent "Widget" "shoppers" [] "") "body"
      = some (JVal.jstr "Discover the incredible Widget. Perfect for shoppers. Experience the difference today!") ∧
    ("Discover the incredible Widget. Perfect for shoppers. Experience the difference today!" : String) ≠ "" :=
  ⟨rfl, rfl, by decide⟩

/-- C3 (amended): with a valid credential, a known platform and a response
that fails JSON decoding, `generate_content` returns the FallbackParsed
record whose body equals the raw returned string when that string is
non-empty (and a default description template when it is empty), with the
generic headline and CTA and the first 5 of the brief's keywords (or the
fixed default set `["product", "sale", "new"]`) as hashtags. -/
theorem generate_parse_failure_fallback :
    ∀ (env : Env) (key platform product_name description audience tone response : String)
      (keywords : List String),
    key ≠ "" → env.openai_available = true →
    (PLATFORM_PROMPTS.lookup platform).isSome = true →
    env.callOutcome = CallOutcome.success response →
    env.jsonLoads response = none →
    generate_tagged (some key) env platform product_name description audience tone
        keywords
      = some (fallbackContent product_name audience keywords response,
          Provenance.fallbackParsed) ∧
    getField (fallbackContent product_name audience keywords response) "headline"
      = some (JVal.jstr ("Amazing " ++ product_name ++ " - Limited Time Offer!")) ∧
    getField (fallbackContent product_name audience keywords response) "body"
      = some (JVal.jstr (if response ≠ "" then response
          else ("Discover the incredible " ++ product_name ++ ". Perfect for " ++
            audience ++ ". Experience the difference today!"))) ∧
    getField (fallbackContent product_name audience keywords response) "cta"
      = some (JVal.jstr "Shop Now") ∧
    getField (fallbackContent product_name audience keywords response) "hashtags"
      = some (JVal.jarr ((if keywords.isEmpty then ["product", "sale", "new"]
          else keywords.take 5).map JVal.jstr)) := by
  intro env key platform pn d aud tone resp kws hk ho hl hco hj
  refine ⟨?_, rfl, rfl, rfl, rfl⟩
  cases hl2 : PLATFORM_PROMPTS.lookup platform with
  | none => rw [hl2] at hl; cases hl
  | some cfg => simp [generate_tagged, hk, ho, hl2, hco, hj]

/-- Witness for `generate_parse_failure_fallback` at a concrete invocation
(platform "Google Ads", non-JSON response "plain text"). -/
theorem generate_parse_failure_fallback_witness :
    generate_tagged (some "sk-test") (envParseFail "plain text") "Google Ads"
        "Widget" "a widget" "shoppers" "Casual" ["alpha", "beta"]
      = some (fallbackContent "Widget" "shoppers" ["alpha", "beta"] "plain text",
          Provenance.fallbackParsed) ∧
    getField (fallbackContent "Widget" "shoppers" ["alpha", "beta"] "plain text") "headline"
      = some (JVal.jstr ("Amazing " ++ "Widget" ++ " - Limited Time Offer!")) ∧
    getField (fallbackContent "Widget" "shoppers" ["alpha", "beta"] "plain text") "body"
      = some (JVal.jstr (if ("plain text" : String) ≠ "" then "plain text"
          else ("Discover the incredible " ++ "Widget" ++ ". Perfect for " ++
            "shoppers" ++ ". Experience the difference today!"))) ∧
    getField (fallbackContent "Widget" "shoppers" ["alpha", "beta"] "plain text") "cta"
      = some (JVal.jstr "Shop Now") ∧
    getField (fallbackContent "Widget" "shoppers" ["alpha", "beta"] "plain text") "hashtags"
      = some (JVal.jarr ((if (["alpha", "beta"] : List String).isEmpty
          then ["product", "sale", "new"]
          else (["alpha", "beta"] : List String).take 5).map JVal.jstr)) :=
  generate_parse_failure_fallback (envParseFail "plain text") "sk-test" "Google Ads"
    "Widget" "a widget" "shoppers" "Casual" "plain text" ["alpha", "beta"]
    (by decide) rfl rfl rfl rfl

/-- C4 (counterexample): the claim says the transport-error result is a Demo
record identical in shape to the no-credential result; at the concrete
invocation below the transport-error path returns the complete demo-template
record while the no-credential path returns `None`, so the two results are
not identical in any sense. -/
theorem generate_transport_error_vs_no_credential :
    generate_tagged (some "sk-test") envTransportFail "Google Ads" "Widget"
      "a widget" "developers" "Casual" ["alpha"]
      = some (demoContent "Widget" "developers" "Casual" ["alpha"], Provenance.demo) ∧
    generate_tagged none envTransportFail "Google Ads" "Widget" "a widget"
      "developers" "Casual" ["alpha"] = none ∧
    generate_tagged (some "sk-test") envTransportFail "Google Ads" "Widget"
      "a widget" "developers" "Casual" ["alpha"]
      ≠ generate_tagged none envTransportFail "Google Ads" "Widget" "a widget"
        "developers" "Casual" ["alpha"] :=
  ⟨rfl, rfl, fun h => Option.noConfusion h⟩

/-- C4 (amended): with a valid credential, a known platform and a live call
that raises a transport error, `generate_content` returns the complete
deterministic demo-template record tagged Demo; the no-credential invocation
does not produce that same record - it returns an absent result instead. -/
theorem generate_transport_error_demo :
    ∀ (env : Env) (key platform product_name description audience tone msg : String)
      (keywords : List String),
    key ≠ "" → env.openai_available = true →
    (PLATFORM_PROMPTS.lookup platform).isSome = true →
    env.callOutcome = CallOutcome.failure msg →
    generate_tagged (some key) env platform product_name description audience tone
        keywords
      = some (demoContent product_name audience tone keywords, Provenance.demo) ∧
    generate_tagged none env platform product_name description audience tone
      keywords = none := by
  intro env key platform pn d aud tone msg kws hk ho hl hco
  refine ⟨?_, rfl⟩
  cases hl2 : PLATFORM_PROMPTS.lookup platform with
  | none => rw [hl2] at hl; cases hl
  | some cfg => simp [generate_tagged, hk, ho, hl2, hco]

/-- Witness for `generate_transport_error_demo` at a concrete invocation. -/
theorem generate_transport_error_demo_witness :
    generate_tagged (some "sk-test") envTransportFail "Instagram" "Widget"
        "a widget" "developers" "Witty" ["alpha"]
      = some (demoContent "Widget" "developers" "Witty" ["alpha"], Provenance.demo) ∧
    generate_tagged none envTransportFail "Instagram" "Widget" "a widget"
      "developers" "Witty" ["alpha"] = none :=
  generate_transport_error_demo envTransportFail "sk-test" "Instagram" "Widget"
    "a widget" "developers" "Witty" "connection error" ["alpha"]
    (by decide) rfl rfl rfl

/-- C5 (counterexample): the claim says every maximal run of 3+ lowercase
letters is a candidate term even when it sits next to a digit, naming
"foo1bar" explicitly; the source regex `\b[a-z]{3,}\b` requires word
boundaries, and digits are word characters, so "foo1bar" yields no token at
all and `extract_keywords` returns the empty list instead of
["foo", "bar"]. -/
theorem extract_digit_adjacent_runs_dropped :
    extract_keywords "foo1bar" 10 = [] := rfl

/-- C5 (amended): `extract_keywords` tokenizes the lowercased text into
runs of 3 or more consecutive lowercase letters that are delimited by word
boundaries (string ends or non-word characters; digits and underscores are
word characters, so runs adjacent to them - as in "foo1bar" - are never
produced); consequently no returned term is shorter than 3 characters or
contains a non-alphabetic character.  The concrete conjuncts exhibit the
boundary semantics: "foo1bar" yields nothing, while "foo,bar" (comma is not
a word character) yields both runs. -/
theorem extract_token_safety :
    (∀ (text : String) (n : Nat) (w : String), w ∈ extract_keywords text n →
      3 ≤ w.length ∧ ∀ c ∈ w.data, isLowerAlpha c = true) ∧
    extract_keywords "foo1bar" 10 = [] ∧
    extract_keywords "foo,bar" 10 = ["foo", "bar"] := by
  refine ⟨?_, rfl, rfl⟩
  intro text n w hw
  exact words_sound text w (List.mem_of_mem_filter (mem_extract hw))

/-- Witness for `extract_token_safety` at the concrete text "foo,bar" and
its first extracted keyword "foo". -/
theorem extract_token_safety_witness :
    3 ≤ ("foo" : String).length ∧ ∀ c ∈ ("foo" : String).data, isLowerAlpha c = true :=
  extract_token_safety.1 "foo,bar" 10 "foo" (by decide)

/-- C6: `extract_keywords` ranks by descending frequency (every returned
list is pairwise ordered by `cntGE`, i.e. later entries never have a larger
count in the filtered token stream), ties are broken by first-occurrence
order (each equal-count fiber of the result is a prefix of the corresponding
fiber of `distinct_terms`, the distinct terms in first-occurrence order),
and on "run run jump jump fly" with topN = 2 it returns exactly
["run", "jump"]. -/
theorem extract_ranking_stable :
    (∀ (text : String) (n : Nat),
      List.Pairwise (cntGE (filtered_words text)) (extract_keywords text n)) ∧
    (∀ (text : String) (n k : Nat),
      (extract_keywords text n).filter (fun w => (filtered_words text).count w == k)
        <+: (distinct_terms text).filter (fun w => (filtered_words text).count w == k)) ∧
    extract_keywords "run run jump jump fly" 2 = ["run", "jump"] := by
  refine ⟨?_, ?_, rfl⟩
  · intro text n
    have h := List.sorted_insertionSort (cntGE (filtered_words text))
      (firstOccs (filtered_words text))
    exact h.sublist (List.take_sublist n _)
  · intro text n k
    have h1 := filter_take_isPrefix
      (List.insertionSort (cntGE (filtered_words text)) (firstOccs (filtered_words text)))
      n (fun w => (filtered_words text).count w == k)
    rw [filter_insertionSort_cnt] at h1
    exact h1

/-- C7: for every text and every `topN`, the extracted list has length at
most `topN` and at most the number of distinct qualifying terms, and empty
input yields the empty list.  (`extract_keywords` is a total Lean function,
so it cannot raise.) -/
theorem extract_length_bounds :
    ∀ (text : String) (n : Nat),
    (extract_keywords text n).length ≤ n ∧
    (extract_keywords text n).length ≤ (distinct_terms text).length ∧
    extract_keywords "" n = [] := by
  intro text n
  refine ⟨List.length_take_le n _, ?_, ?_⟩
  · have h1 : (extract_keywords text n).length
        ≤ (List.insertionSort (cntGE (filtered_words text))
            (firstOccs (filtered_words text))).length := by
      show ((List.insertionSort (cntGE (filtered_words text))
          (firstOccs (filtered_words text))).take n).length ≤ _
      rw [List.length_take]
      exact min_le_right _ _
    rw [List.length_insertionSort] at h1
    exact h1
  · show (List.insertionSort (cntGE (filtered_words "")) (firstOccs (filtered_words ""))).take n = []
    rw [show firstOccs (filtered_words "") = [] from rfl]
    exact List.take_nil

/-- C8 (counterexample): the claim says every brief with an unknown platform
yields a complete default-template record rather than an exception; with no
credential the pipeline returns `None` for the unknown platform "TikTok",
which is not a complete record. -/
theorem generate_unknown_platform_no_credential_absent :
    generate_content none envTransportFail "TikTok" "Widget" "a widget"
      "developers" "Casual" [] = none ∧
    (none : Option JVal) ≠ some (demoContent "Widget" "developers" "Casual" []) :=
  ⟨rfl, fun h => Option.noConfusion h⟩

/-- C8 (amended): when a credential is supplied and the openai import
succeeds, a brief whose platform is not in `PLATFORM_PROMPTS` makes the
`PLATFORM_PROMPTS[platform]` lookup raise a `KeyError` inside the `try`
block, which the `except Exception` handler converts into the complete
default demo-template record instead of propagating; with no credential (or
a failed import) the pipeline instead returns an absent result. -/
theorem generate_unknown_platform_demo :
    ∀ (env : Env) (key platform product_name description audience tone : String)
      (keywords : List String),
    key ≠ "" → env.openai_available = true →
    PLATFORM_PROMPTS.lookup platform = none →
    generate_tagged (some key) env platform product_name description audience tone
        keywords
      = some (demoContent product_name audience tone keywords, Provenance.demo) ∧
    isComplete (demoContent product_name audience tone keywords) = true := by
  intro env key platform pn d aud tone kws hk ho hl
  exact ⟨by simp [generate_tagged, hk, ho, hl], rfl⟩

/-- Witness for `generate_unknown_platform_demo` at the concrete unknown
platform "TikTok". -/
theorem generate_unknown_platform_demo_witness :
    generate_tagged (some "sk-test") envTransportFail "TikTok" "Widget"
        "a widget" "developers" "Casual" []
      = some (demoContent "Widget" "developers" "Casual" [], Provenance.demo) ∧
    isComplete (demoContent "Widget" "developers" "Casual" []) = true :=
  generate_unknown_platform_demo envTransportFail "sk-test" "TikTok" "Widget"
    "a widget" "developers" "Casual" [] (by decide) rfl rfl

/-- C9: `extract_keywords` is pure and deterministic.  The source body uses
only `re.findall`, a local list comprehension and a local `Counter` - no
ambient state is read or written - so an invocation with the session state
threaded through explicitly returns a result that does not depend on that
state, and returns the state unchanged; two invocations on the same input
yield the same list. -/
theorem extract_keywords_pure :
    ∀ (s1 s2 : SessionState) (text : String) (n : Nat),
      (extract_keywords_call s1 text n).1 = (extract_keywords_call s2 text n).1 ∧
      (extract_keywords_call s1 text n).2 = s1 ∧
      (extract_keywords_call s1 text n).1 = extract_keywords text n :=
  fun _ _ _ _ => ⟨rfl, rfl, rfl⟩

/-- C10: with an empty keyword list the two degrade paths default their
hashtags differently - the malformed-response (FallbackParsed) path uses
`["product", "sale", "new"]` (source line 340) while the transport-error
(Demo) path uses the product name lowercased with spaces removed followed by
`"new", "sale", "quality"` (source line 355). -/
theorem generate_default_hashtag_sets :
    ∀ (product_name description audience tone response : String),
    (generate_content (some "sk-test") (envParseFail response) "Google Ads"
        product_name description audience tone []).bind (fun v => getField v "hashtags")
      = some (JVal.jarr [JVal.jstr "product", JVal.jstr "sale", JVal.jstr "new"]) ∧
    (generate_content (some "sk-test") envTransportFail "Google Ads"
        product_name description audience tone []).bind (fun v => getField v "hashtags")
      = some (JVal.jarr [JVal.jstr (stripSpacesLower product_name), JVal.jstr "new",
          JVal.jstr "sale", JVal.jstr "quality"]) :=
  fun _ _ _ _ _ => ⟨rfl, rfl⟩

end App
